/-
Verification of the mos6502 emulator (chris-pikul/mos6502).

This file gives a shallow embedding, in Lean 4, of the parts of the C++
source that the verified properties talk about:

  * utils.h       : the byte/word helper macros
  * instructions.h / instructions.cpp : the opcode table
  * memory.cpp    : Memory::ReadByte / Memory::ReadWord
  * cpu.cpp       : CPU::Reset / Tick / IRQ / NMI, stack and bus helpers
  * cpu_addressing.cpp (addressing-mode evaluator) : Addr_ABS .. Addr_ZPY
  * cpu_instructions.cpp : the 56 instruction handlers and CPU::Branch
  * cpu.cpp (Program::CompileString) : the branch-specialisation block

Machine integers are embedded as Nat with explicit reductions modulo 2^8
(uint8_t `byte`) and 2^16 (uint16_t `word` / the `address` union) at the
points where the C++ types truncate.  The CPU's bus is the default 64 KiB
Memory device of the shell (so the device bound check `addr.value < m_Size`
always passes and reads reduce to the data array); it is embedded as a
total function from addresses to byte values.

Several provided header files hold more than one concatenated repository
document; in particular src/include/program.h also contains bus.h and the
full cpu.h (the CPU class with the StatusFlag enum, the status-flag
helpers GetStatusFlag / HasStatusFlag / SetStatusFlag, and the supplied
value helpers ClearSupplied / SetSupplied).  Those helpers are embedded
below directly from that cpu.h text.
-/
import Mathlib

namespace Mos6502

/-- Macro GET_LOW_BYTE(val) of utils.h: `(val & 0xFF)`. -/
def GET_LOW_BYTE (v : Nat) : Nat := v &&& 0xFF

/-- Macro GET_HIGH_BYTE(val) of utils.h: `((val >> 8) & 0xFF)`. -/
def GET_HIGH_BYTE (v : Nat) : Nat := (v >>> 8) &&& 0xFF

/-- Macro MAKE_WORD(low, high) of utils.h: `((high << 8) | low)`. -/
def MAKE_WORD (low high : Nat) : Nat := (high <<< 8) ||| low

/-- Macro IS_NEGATIVE(val) of utils.h: `(val & 0x80)` used as a truth value. -/
def IS_NEGATIVE (v : Nat) : Bool := v &&& 0x80 != 0

/-- Constant ADDRESS_STACK of utils.h. -/
def ADDRESS_STACK : Nat := 0x0100

/-- Constant ADDRESS_NMI_VECTOR of utils.h. -/
def ADDRESS_NMI_VECTOR : Nat := 0xFFFA

/-- Constant ADDRESS_RESET_VECTOR of utils.h. -/
def ADDRESS_RESET_VECTOR : Nat := 0xFFFC

/-- Constant ADDRESS_IRQ_VECTOR of utils.h. -/
def ADDRESS_IRQ_VECTOR : Nat := 0xFFFE

/-- Subtraction on `byte` (uint8_t) values: the result of `a - b` reduced
modulo 256, as the C++ byte arithmetic computes it. -/
def byteSub (a b : Nat) : Nat := (a % 256 + 256 - b % 256) % 256

/-- The AddressMode enum of instructions.h. -/
inductive AddressMode where
  | ILL
  | ABS
  | ABX
  | ABY
  | ACC
  | IMM
  | IMP
  | IND
  | INX
  | INY
  | REL
  | ZPG
  | ZPX
  | ZPY
deriving DecidableEq

/-- The Instruction enum of instructions.h (ILL plus the 56 official
mnemonics). -/
inductive Instruction where
  | ILL
  | ADC
  | AND
  | ASL
  | BCC
  | BCS
  | BEQ
  | BIT
  | BMI
  | BNE
  | BPL
  | BRK
  | BVC
  | BVS
  | CLC
  | CLD
  | CLI
  | CLV
  | CMP
  | CPX
  | CPY
  | DEC
  | DEX
  | DEY
  | EOR
  | INC
  | INX
  | INY
  | JMP
  | JSR
  | LDA
  | LDX
  | LDY
  | LSR
  | NOP
  | ORA
  | PHA
  | PHP
  | PLA
  | PLP
  | ROL
  | ROR
  | RTI
  | RTS
  | SBC
  | SEC
  | SED
  | SEI
  | STA
  | STX
  | STY
  | TAX
  | TAY
  | TSX
  | TXA
  | TXS
  | TYA
deriving DecidableEq

/-- The InstructionDetail struct of instructions.h: opcode byte, decoded
instruction, addressing mode, encoded length, base cycles and the
page-penalty flag. -/
structure InstructionDetail where
  opCode : Nat
  instruction : Instruction
  addressing : AddressMode
  bytesUsed : Nat
  minCycles : Nat
  variableCycles : Bool
deriving DecidableEq

/-- Constant MAX_INSTRUCTIONS of instructions.h: `constexpr fast_byte
MAX_INSTRUCTIONS = 255`. -/
def MAX_INSTRUCTIONS : Nat := 255

/-- The StatusFlag enum of cpu.h (in src/include/program.h): one
constructor per processor-status flag, C through N from LSB to MSB. -/
inductive StatusFlag where
  | CARRY
  | ZERO
  | INTERRUPT
  | DECIMAL
  | BREAK
  | UNUSED
  | INT_OVERFLOW
  | NEGATIVE
deriving DecidableEq

/-- The numeric value of each StatusFlag enumerator of cpu.h:
`CARRY = (1 << 0)` through `NEGATIVE = (1 << 7)`. -/
def StatusFlag.mask : StatusFlag → Nat
  | .CARRY => 0x01
  | .ZERO => 0x02
  | .INTERRUPT => 0x04
  | .DECIMAL => 0x08
  | .BREAK => 0x10
  | .UNUSED => 0x20
  | .INT_OVERFLOW => 0x40
  | .NEGATIVE => 0x80

/-- The architectural state of the CPU object of cpu.h, together with the
data array of the attached 64 KiB Memory device (the bus).  All register
fields hold their C++ values as natural numbers. -/
structure CPUState where
  pc : Nat
  sp : Nat
  acc : Nat
  x : Nat
  y : Nat
  p : Nat
  wasSupplied : Bool
  suppliedValue : Nat
  cyclesRem : Nat
  cyclesExecuted : Nat
  mem : Nat → Nat

namespace CPUState

/-- CPU::HasStatusFlag of cpu.h (in src/include/program.h): the truth
value of `m_ProcStatus.value & (byte)f`. -/
def HasStatusFlag (s : CPUState) (f : StatusFlag) : Bool :=
  s.p &&& f.mask != 0

/-- CPU::GetStatusFlag of cpu.h (in src/include/program.h):
`m_ProcStatus.value & (byte)f ? 1 : 0`. -/
def GetStatusFlag (s : CPUState) (f : StatusFlag) : Nat :=
  if s.p &&& f.mask != 0 then 1 else 0

/-- CPU::SetStatusFlag of cpu.h (in src/include/program.h): or the mask in
when setting, and-with-complement when clearing; `m_ProcStatus.value` is a
uint8_t, so the complement of the mask acts within the low byte
(`&&& (0xFF ^^^ mask)`). -/
def SetStatusFlag (s : CPUState) (f : StatusFlag) (v : Bool) : CPUState :=
  if v then { s with p := s.p ||| f.mask }
  else { s with p := s.p &&& (0xFF ^^^ f.mask) }

/-- CPU::SetSupplied of cpu.h (in src/include/program.h): set the supplied
value and enable the boolean switch. -/
def SetSupplied (s : CPUState) (v : Nat) : CPUState :=
  { s with wasSupplied := true, suppliedValue := v }

/-- CPU::ClearSupplied of cpu.h (in src/include/program.h): reset
`m_WasSupplied = false` and `m_SuppliedValue = 0`. -/
def ClearSupplied (s : CPUState) : CPUState :=
  { s with wasSupplied := false, suppliedValue := 0 }

/-- CPU::ReadByte of cpu.cpp through the attached default 64 KiB Memory:
the device bound check `addr.value < m_Size` always passes, so the read
returns the byte stored at the (16-bit) address. -/
def ReadByte (s : CPUState) (a : Nat) : Nat :=
  s.mem (a % 65536) % 256

/-- CPU::ReadWord via Memory::ReadWord of memory.cpp: two single-byte
reads, the second at `addr.value + 1` converted back through the 16-bit
address union. -/
def ReadWord (s : CPUState) (a : Nat) : Nat :=
  MAKE_WORD (s.ReadByte a) (s.ReadByte (a + 1))

/-- CPU::WriteByte of cpu.cpp through the attached 64 KiB Memory. -/
def WriteByte (s : CPUState) (a v : Nat) : CPUState :=
  { s with mem := fun i => if i = a % 65536 then v % 256 else s.mem i }

/-- CPU::PushToStack of cpu.cpp: compute `ADDRESS_STACK + m_SP`, decrement
SP (uint8_t, wraps modulo 256), then write the byte. -/
def PushToStack (s : CPUState) (data : Nat) : CPUState :=
  let pointer := ADDRESS_STACK + s.sp
  let s1 : CPUState := { s with sp := (s.sp + 255) % 256 }
  s1.WriteByte pointer data

/-- CPU::PullFromStack of cpu.cpp: increment SP (uint8_t, wraps), then
read from `ADDRESS_STACK + m_SP`. -/
def PullFromStack (s : CPUState) : CPUState × Nat :=
  let s1 : CPUState := { s with sp := (s.sp + 1) % 256 }
  (s1, s1.ReadByte (ADDRESS_STACK + s1.sp))

/-- CPU::FetchData of cpu.cpp: the supplied shadow byte when the operand
was supplied out-of-band, otherwise a bus read. -/
def FetchData (s : CPUState) (addr : Nat) : Nat :=
  if s.wasSupplied then s.suppliedValue else s.ReadByte addr

/-- CPU::Addr_ABS of cpu_addressing.cpp. -/
def Addr_ABS (s : CPUState) : CPUState × Nat × Nat :=
  let low := s.ReadByte s.pc
  let s := { s with pc := (s.pc + 1) % 65536 }
  let high := s.ReadByte s.pc
  let s := { s with pc := (s.pc + 1) % 65536 }
  (s, MAKE_WORD low high, 3)

/-- CPU::Addr_ABX of cpu_addressing.cpp: absolute plus X; the sum passes
through the 16-bit address union, and a page change costs one more
cycle. -/
def Addr_ABX (s : CPUState) : CPUState × Nat × Nat :=
  let low := s.ReadByte s.pc
  let s := { s with pc := (s.pc + 1) % 65536 }
  let high := s.ReadByte s.pc
  let s := { s with pc := (s.pc + 1) % 65536 }
  let addr := (MAKE_WORD low high + s.x) % 65536
  let cycles := if GET_HIGH_BYTE addr ≠ high then 4 else 3
  (s, addr, cycles)

/-- CPU::Addr_ABY of cpu_addressing.cpp. -/
def Addr_ABY (s : CPUState) : CPUState × Nat × Nat :=
  let low := s.ReadByte s.pc
  let s := { s with pc := (s.pc + 1) % 65536 }
  let high := s.ReadByte s.pc
  let s := { s with pc := (s.pc + 1) % 65536 }
  let addr := (MAKE_WORD low high + s.y) % 65536
  let cycles := if GET_HIGH_BYTE addr ≠ high then 4 else 3
  (s, addr, cycles)

/-- CPU::Addr_ACC of cpu_addressing.cpp: supply the accumulator as the
operand; the returned address is the current PC. -/
def Addr_ACC (s : CPUState) : CPUState × Nat × Nat :=
  (s.SetSupplied s.acc, s.pc, 1)

/-- CPU::Addr_IMM of cpu_addressing.cpp: the effective address is the
current PC (`m_PC++`). -/
def Addr_IMM (s : CPUState) : CPUState × Nat × Nat :=
  let addr := s.pc
  let s := { s with pc := (s.pc + 1) % 65536 }
  (s, addr, 1)

/-- CPU::Addr_IMP of cpu_addressing.cpp. -/
def Addr_IMP (s : CPUState) : CPUState × Nat × Nat :=
  (s.SetSupplied s.acc, 0, 1)

/-- CPU::Addr_IND of cpu_addressing.cpp, including the preserved NMOS
page-boundary bug when the pointer's low byte is 0xFF. -/
def Addr_IND (s : CPUState) : CPUState × Nat × Nat :=
  let low := s.ReadByte s.pc
  let s := { s with pc := (s.pc + 1) % 65536 }
  let high := s.ReadByte s.pc
  let s := { s with pc := (s.pc + 1) % 65536 }
  let pointer := MAKE_WORD low high
  let low2 := s.ReadByte pointer
  let high2 :=
    if GET_LOW_BYTE pointer = 0xFF then s.ReadByte (pointer &&& 0xFF00)
    else s.ReadByte (pointer + 1)
  (s, MAKE_WORD low2 high2, 4)

/-- CPU::Addr_INX of cpu_addressing.cpp, exactly as written in the source:
the low pointer byte is read from `(table + xword) & 0x00FF` and the high
pointer byte from `(table + xword + 1) & 0xFF00`. -/
def Addr_INX (s : CPUState) : CPUState × Nat × Nat :=
  let table := s.ReadByte s.pc
  let s := { s with pc := (s.pc + 1) % 65536 }
  let low := s.ReadByte ((table + s.x) &&& 0x00FF)
  let high := s.ReadByte ((table + s.x + 1) &&& 0xFF00)
  (s, MAKE_WORD low high, 5)

/-- CPU::Addr_INY of cpu_addressing.cpp. -/
def Addr_INY (s : CPUState) : CPUState × Nat × Nat :=
  let table := s.ReadByte s.pc
  let s := { s with pc := (s.pc + 1) % 65536 }
  let low := s.ReadByte (table &&& 0x00FF)
  let high := s.ReadByte ((table + 1) &&& 0x00FF)
  let addr := (MAKE_WORD low high + s.y) % 65536
  let cycles := if GET_HIGH_BYTE addr ≠ high then 5 else 4
  (s, addr, cycles)

/-- CPU::Addr_REL of cpu_addressing.cpp, exactly as written in the source:
`rel` is a uint8_t, so the attempted sign extension `rel |= 0xFF00`
truncates back to the same 8-bit value. -/
def Addr_REL (s : CPUState) : CPUState × Nat × Nat :=
  let rel := s.ReadByte s.pc
  let s := { s with pc := (s.pc + 1) % 65536 }
  let rel := if rel &&& 0x80 ≠ 0 then (rel ||| 0xFF00) % 256 else rel
  (s, rel, 1)

/-- CPU::Addr_ZPG of cpu_addressing.cpp. -/
def Addr_ZPG (s : CPUState) : CPUState × Nat × Nat :=
  let addr := s.ReadByte s.pc
  let s := { s with pc := (s.pc + 1) % 65536 }
  (s, addr, 2)

/-- CPU::Addr_ZPX of cpu_addressing.cpp: add X but never leave the zero
page. -/
def Addr_ZPX (s : CPUState) : CPUState × Nat × Nat :=
  let low := s.ReadByte s.pc
  let s := { s with pc := (s.pc + 1) % 65536 }
  (s, (low + s.x) &&& 0x00FF, 3)

/-- CPU::Addr_ZPY of cpu_addressing.cpp. -/
def Addr_ZPY (s : CPUState) : CPUState × Nat × Nat :=
  let low := s.ReadByte s.pc
  let s := { s with pc := (s.pc + 1) % 65536 }
  (s, (low + s.y) &&& 0x00FF, 3)

/-- CPU::ExecuteAddressing of cpu_addressing.cpp: clear the supplied
shadow, dispatch on the mode; the ILL arm leaves the out cycles at their
initial 0 and returns address 0. -/
def ExecuteAddressing (s : CPUState) (addrMode : AddressMode) : CPUState × Nat × Nat :=
  let s := s.ClearSupplied
  match addrMode with
  | .ILL => (s, 0, 0)
  | .ABS => s.Addr_ABS
  | .ABX => s.Addr_ABX
  | .ABY => s.Addr_ABY
  | .ACC => s.Addr_ACC
  | .IMM => s.Addr_IMM
  | .IMP => s.Addr_IMP
  | .IND => s.Addr_IND
  | .INX => s.Addr_INX
  | .INY => s.Addr_INY
  | .REL => s.Addr_REL
  | .ZPG => s.Addr_ZPG
  | .ZPX => s.Addr_ZPX
  | .ZPY => s.Addr_ZPY

/-- CPU::Branch of cpu_instructions.cpp, exactly as written in the source:
the next PC passes through the 16-bit address union, and the cycle test
compares the page byte `nextPC.page` against the word value
`m_PC & 0xFF00` (both promoted to int). -/
def Branch (s : CPUState) (addr : Nat) : CPUState × Nat :=
  let nextPC := (s.pc + addr) % 65536
  let cycles := if GET_HIGH_BYTE nextPC ≠ s.pc &&& 0xFF00 then 3 else 2
  ({ s with pc := nextPC }, cycles)

/-- CPU::Ins_ADC of cpu_instructions.cpp.  In the binary branch the
overflow formula `(~(acc ^ val) & (acc ^ result)) & 0x0080` promotes the
16-bit words to int; only bit 7 is examined, so complementing within 16
bits is exact. -/
def Ins_ADC (s : CPUState) (addr : Nat) : CPUState × Nat :=
  let (s, result) :=
    if s.HasStatusFlag .DECIMAL then
      let acc_i := (s.acc &&& 0xF) + (((s.acc >>> 4) &&& 0xF) * 10)
      let val := s.FetchData addr
      let val_i := (val &&& 0xF) + (((val >>> 4) &&& 0xF) * 10)
      let temp := acc_i + val_i + s.GetStatusFlag .CARRY
      let hundreds := temp / 100
      let tens := (temp - hundreds * 100) / 10
      let ones := temp - hundreds * 100 - tens * 10
      let result := (tens <<< 4) ||| ones
      (s.SetStatusFlag .CARRY (result > 0x99), result)
    else
      let carry := s.GetStatusFlag .CARRY
      let acc := s.acc
      let val := s.FetchData addr
      let result := acc + val + carry
      let s := s.SetStatusFlag .CARRY (result > 0xFF)
      let s := s.SetStatusFlag .INT_OVERFLOW
        ((((0xFFFF ^^^ (acc ^^^ val)) &&& (acc ^^^ result)) &&& 0x0080) != 0)
      (s, result)
  let s := s.SetStatusFlag .ZERO (GET_LOW_BYTE result = 0)
  let s := s.SetStatusFlag .NEGATIVE (IS_NEGATIVE result)
  ({ s with acc := GET_LOW_BYTE result }, 1)

/-- CPU::Ins_AND of cpu_instructions.cpp. -/
def Ins_AND (s : CPUState) (addr : Nat) : CPUState × Nat :=
  let s := { s with acc := s.acc &&& s.FetchData addr }
  let s := s.SetStatusFlag .ZERO (s.acc = 0)
  let s := s.SetStatusFlag .NEGATIVE (IS_NEGATIVE s.acc)
  (s, 1)

/-- CPU::Ins_ASL of cpu_instructions.cpp, exactly as written in the
source: the shifted byte is always assigned to the accumulator
(`m_Acc = result & 0x00FF`); no memory write-back occurs. -/
def Ins_ASL (s : CPUState) (addr : Nat) : CPUState × Nat :=
  let result := s.FetchData addr <<< 1
  let s := s.SetStatusFlag .CARRY (result > 0xFF)
  let s := s.SetStatusFlag .ZERO (GET_LOW_BYTE result = 0)
  let s := s.SetStatusFlag .NEGATIVE (IS_NEGATIVE result)
  ({ s with acc := result &&& 0x00FF }, 1)

/-- CPU::Ins_BCC of cpu_instructions.cpp. -/
def Ins_BCC (s : CPUState) (addr : Nat) : CPUState × Nat :=
  if s.HasStatusFlag .CARRY = false then s.Branch addr else (s, 1)

/-- CPU::Ins_BCS of cpu_instructions.cpp. -/
def Ins_BCS (s : CPUState) (addr : Nat) : CPUState × Nat :=
  if s.HasStatusFlag .CARRY = true then s.Branch addr else (s, 1)

/-- CPU::Ins_BEQ of cpu_instructions.cpp. -/
def Ins_BEQ (s : CPUState) (addr : Nat) : CPUState × Nat :=
  if s.HasStatusFlag .ZERO = true then s.Branch addr else (s, 1)

/-- CPU::Ins_BIT of cpu_instructions.cpp. -/
def Ins_BIT (s : CPUState) (addr : Nat) : CPUState × Nat :=
  let value := s.FetchData addr
  let result := s.acc &&& value
  let s := s.SetStatusFlag .ZERO (result = 0)
  let s := s.SetStatusFlag .INT_OVERFLOW (value &&& 0x40 != 0)
  let s := s.SetStatusFlag .NEGATIVE (IS_NEGATIVE value)
  (s, 1)

/-- CPU::Ins_BMI of cpu_instructions.cpp. -/
def Ins_BMI (s : CPUState) (addr : Nat) : CPUState × Nat :=
  if s.HasStatusFlag .NEGATIVE = true then s.Branch addr else (s, 1)

/-- CPU::Ins_BNE of cpu_instructions.cpp. -/
def Ins_BNE (s : CPUState) (addr : Nat) : CPUState × Nat :=
  if s.HasStatusFlag .ZERO = false then s.Branch addr else (s, 1)

/-- CPU::Ins_BPL of cpu_instructions.cpp. -/
def Ins_BPL (s : CPUState) (addr : Nat) : CPUState × Nat :=
  if s.HasStatusFlag .NEGATIVE = false then s.Branch addr else (s, 1)

/-- CPU::Ins_BRK of cpu_instructions.cpp. -/
def Ins_BRK (s : CPUState) (addr : Nat) : CPUState × Nat :=
  let s := { s with pc := (s.pc + 1) % 65536 }
  let s := s.PushToStack (GET_HIGH_BYTE s.pc)
  let s := s.PushToStack (GET_LOW_BYTE s.pc)
  let s := s.PushToStack s.p
  let low := s.ReadByte 0xFFFE
  let high := s.ReadByte 0xFFFF
  let s := { s with pc := MAKE_WORD low high }
  let s := s.SetStatusFlag .BREAK true
  (s, 6)

/-- CPU::Ins_BVC of cpu_instructions.cpp. -/
def Ins_BVC (s : CPUState) (addr : Nat) : CPUState × Nat :=
  if s.HasStatusFlag .INT_OVERFLOW = false then s.Branch addr else (s, 1)

/-- CPU::Ins_BVS of cpu_instructions.cpp. -/
def Ins_BVS (s : CPUState) (addr : Nat) : CPUState × Nat :=
  if s.HasStatusFlag .INT_OVERFLOW = true then s.Branch addr else (s, 1)

/-- CPU::Ins_CLC of cpu_instructions.cpp. -/
def Ins_CLC (s : CPUState) (addr : Nat) : CPUState × Nat :=
  (s.SetStatusFlag .CARRY false, 1)

/-- CPU::Ins_CLD of cpu_instructions.cpp. -/
def Ins_CLD (s : CPUState) (addr : Nat) : CPUState × Nat :=
  (s.SetStatusFlag .DECIMAL false, 1)

/-- CPU::Ins_CLI of cpu_instructions.cpp. -/
def Ins_CLI (s : CPUState) (addr : Nat) : CPUState × Nat :=
  (s.SetStatusFlag .INTERRUPT false, 1)

/-- CPU::Ins_CLV of cpu_instructions.cpp. -/
def Ins_CLV (s : CPUState) (addr : Nat) : CPUState × Nat :=
  (s.SetStatusFlag .INT_OVERFLOW false, 1)

/-- CPU::Ins_CMP of cpu_instructions.cpp: `result` is the uint8_t
difference `m_Acc - value`. -/
def Ins_CMP (s : CPUState) (addr : Nat) : CPUState × Nat :=
  let value := s.FetchData addr
  let result := byteSub s.acc value
  let s := s.SetStatusFlag .CARRY (s.acc ≥ value)
  let s := s.SetStatusFlag .ZERO (result = 0)
  let s := s.SetStatusFlag .NEGATIVE (IS_NEGATIVE result)
  (s, 1)

/-- CPU::Ins_CPX of cpu_instructions.cpp. -/
def Ins_CPX (s : CPUState) (addr : Nat) : CPUState × Nat :=
  let value := s.FetchData addr
  let result := byteSub s.x value
  let s := s.SetStatusFlag .CARRY (s.x ≥ value)
  let s := s.SetStatusFlag .ZERO (result = 0)
  let s := s.SetStatusFlag .NEGATIVE (IS_NEGATIVE result)
  (s, 1)

/-- CPU::Ins_CPY of cpu_instructions.cpp. -/
def Ins_CPY (s : CPUState) (addr : Nat) : CPUState × Nat :=
  let value := s.FetchData addr
  let result := byteSub s.y value
  let s := s.SetStatusFlag .CARRY (s.y ≥ value)
  let s := s.SetStatusFlag .ZERO (result = 0)
  let s := s.SetStatusFlag .NEGATIVE (IS_NEGATIVE result)
  (s, 1)

/-- CPU::Ins_DEC of cpu_instructions.cpp. -/
def Ins_DEC (s : CPUState) (addr : Nat) : CPUState × Nat :=
  let value := byteSub (s.FetchData addr) 1
  let s := s.WriteByte addr value
  let s := s.SetStatusFlag .ZERO (value = 0)
  let s := s.SetStatusFlag .NEGATIVE (IS_NEGATIVE value)
  (s, 3)

/-- CPU::Ins_DEX of cpu_instructions.cpp. -/
def Ins_DEX (s : CPUState) (addr : Nat) : CPUState × Nat :=
  let s := { s with x := byteSub s.x 1 }
  let s := s.SetStatusFlag .ZERO (s.x = 0)
  let s := s.SetStatusFlag .NEGATIVE (IS_NEGATIVE s.x)
  (s, 1)

/-- CPU::Ins_DEY of cpu_instructions.cpp. -/
def Ins_DEY (s : CPUState) (addr : Nat) : CPUState × Nat :=
  let s := { s with y := byteSub s.y 1 }
  let s := s.SetStatusFlag .ZERO (s.y = 0)
  let s := s.SetStatusFlag .NEGATIVE (IS_NEGATIVE s.y)
  (s, 1)

/-- CPU::Ins_EOR of cpu_instructions.cpp. -/
def Ins_EOR (s : CPUState) (addr : Nat) : CPUState × Nat :=
  let value := s.FetchData addr
  let s := { s with acc := s.acc ^^^ value }
  let s := s.SetStatusFlag .ZERO (s.acc = 0)
  let s := s.SetStatusFlag .NEGATIVE (IS_NEGATIVE s.acc)
  (s, 1)

/-- CPU::Ins_INC of cpu_instructions.cpp. -/
def Ins_INC (s : CPUState) (addr : Nat) : CPUState × Nat :=
  let value := (s.FetchData addr + 1) % 256
  let s := s.WriteByte addr value
  let s := s.SetStatusFlag .ZERO (value = 0)
  let s := s.SetStatusFlag .NEGATIVE (IS_NEGATIVE value)
  (s, 3)

/-- CPU::Ins_INX of cpu_instructions.cpp. -/
def Ins_INX (s : CPUState) (addr : Nat) : CPUState × Nat :=
  let s := { s with x := (s.x + 1) % 256 }
  let s := s.SetStatusFlag .ZERO (s.x = 0)
  let s := s.SetStatusFlag .NEGATIVE (IS_NEGATIVE s.x)
  (s, 1)

/-- CPU::Ins_INY of cpu_instructions.cpp. -/
def Ins_INY (s : CPUState) (addr : Nat) : CPUState × Nat :=
  let s := { s with y := (s.y + 1) % 256 }
  let s := s.SetStatusFlag .ZERO (s.y = 0)
  let s := s.SetStatusFlag .NEGATIVE (IS_NEGATIVE s.y)
  (s, 1)

/-- CPU::Ins_JMP of cpu_instructions.cpp. -/
def Ins_JMP (s : CPUState) (addr : Nat) : CPUState × Nat :=
  ({ s with pc := addr }, 1)

/-- CPU::Ins_JSR of cpu_instructions.cpp: decrement PC (uint16_t, wraps),
push its high then low byte, then jump. -/
def Ins_JSR (s : CPUState) (addr : Nat) : CPUState × Nat :=
  let s := { s with pc := (s.pc + 65535) % 65536 }
  let s := s.PushToStack (GET_HIGH_BYTE s.pc)
  let s := s.PushToStack (GET_LOW_BYTE s.pc)
  let s := { s with pc := addr }
  (s, 3)

/-- CPU::Ins_LDA of cpu_instructions.cpp. -/
def Ins_LDA (s : CPUState) (addr : Nat) : CPUState × Nat :=
  let s := { s with acc := s.FetchData addr }
  let s := s.SetStatusFlag .ZERO (s.acc = 0)
  let s := s.SetStatusFlag .NEGATIVE (IS_NEGATIVE s.acc)
  (s, 1)

/-- CPU::Ins_LDX of cpu_instructions.cpp. -/
def Ins_LDX (s : CPUState) (addr : Nat) : CPUState × Nat :=
  let s := { s with x := s.FetchData addr }
  let s := s.SetStatusFlag .ZERO (s.x = 0)
  let s := s.SetStatusFlag .NEGATIVE (IS_NEGATIVE s.x)
  (s, 1)

/-- CPU::Ins_LDY of cpu_instructions.cpp. -/
def Ins_LDY (s : CPUState) (addr : Nat) : CPUState × Nat :=
  let s := { s with y := s.FetchData addr }
  let s := s.SetStatusFlag .ZERO (s.y = 0)
  let s := s.SetStatusFlag .NEGATIVE (IS_NEGATIVE s.y)
  (s, 1)

/-- CPU::Ins_LSR of cpu_instructions.cpp, exactly as written in the
source: the shifted byte is always assigned to the accumulator
(`m_Acc = result`); no memory write-back occurs. -/
def Ins_LSR (s : CPUState) (addr : Nat) : CPUState × Nat :=
  let value := s.FetchData addr
  let result := value >>> 1
  let s := s.SetStatusFlag .CARRY (value &&& 0x01 != 0)
  let s := s.SetStatusFlag .ZERO (result = 0)
  let s := s.SetStatusFlag .NEGATIVE (IS_NEGATIVE result)
  ({ s with acc := result }, 1)

/-- CPU::Ins_NOP of cpu_instructions.cpp. -/
def Ins_NOP (s : CPUState) (addr : Nat) : CPUState × Nat :=
  (s, 1)

/-- CPU::Ins_ORA of cpu_instructions.cpp. -/
def Ins_ORA (s : CPUState) (addr : Nat) : CPUState × Nat :=
  let s := { s with acc := s.acc ||| s.FetchData addr }
  let s := s.SetStatusFlag .ZERO (s.acc = 0)
  let s := s.SetStatusFlag .NEGATIVE (IS_NEGATIVE s.acc)
  (s, 1)

/-- CPU::Ins_PHA of cpu_instructions.cpp. -/
def Ins_PHA (s : CPUState) (addr : Nat) : CPUState × Nat :=
  (s.PushToStack s.acc, 2)

/-- CPU::Ins_PHP of cpu_instructions.cpp. -/
def Ins_PHP (s : CPUState) (addr : Nat) : CPUState × Nat :=
  (s.PushToStack s.p, 2)

/-- CPU::Ins_PLA of cpu_instructions.cpp. -/
def Ins_PLA (s : CPUState) (addr : Nat) : CPUState × Nat :=
  let (s, v) := s.PullFromStack
  let s := { s with acc := v }
  let s := s.SetStatusFlag .ZERO (s.acc = 0)
  let s := s.SetStatusFlag .NEGATIVE (IS_NEGATIVE s.acc)
  (s, 3)

/-- CPU::Ins_PLP of cpu_instructions.cpp: pull P, then force the unused
bit. -/
def Ins_PLP (s : CPUState) (addr : Nat) : CPUState × Nat :=
  let (s, v) := s.PullFromStack
  let s := { s with p := v }
  let s := s.SetStatusFlag .UNUSED true
  (s, 3)

/-- CPU::Ins_ROL of cpu_instructions.cpp: `result` is a uint8_t, so the
int expression `(value << 1) | carry` truncates to its low byte. -/
def Ins_ROL (s : CPUState) (addr : Nat) : CPUState × Nat :=
  let value := s.FetchData addr
  let result := ((value <<< 1) ||| s.GetStatusFlag .CARRY) % 256
  let s := s.SetStatusFlag .CARRY (value &&& 0x80 != 0)
  let s := s.SetStatusFlag .ZERO (result = 0)
  let s := s.SetStatusFlag .NEGATIVE (IS_NEGATIVE result)
  if s.wasSupplied then ({ s with acc := result }, 1)
  else (s.WriteByte addr result, 2)

/-- CPU::Ins_ROR of cpu_instructions.cpp, exactly as written in the
source: `result` is a uint8_t, so the int expression
`(value >> 1) | (carry << 8)` truncates to its low byte and the carry bit
shifted to position 8 is discarded. -/
def Ins_ROR (s : CPUState) (addr : Nat) : CPUState × Nat :=
  let value := s.FetchData addr
  let result := ((value >>> 1) ||| (s.GetStatusFlag .CARRY <<< 8)) % 256
  let s := s.SetStatusFlag .CARRY (value &&& 0x01 != 0)
  let s := s.SetStatusFlag .ZERO (result = 0)
  let s := s.SetStatusFlag .NEGATIVE (IS_NEGATIVE result)
  if s.wasSupplied then ({ s with acc := result }, 1)
  else (s.WriteByte addr result, 2)

/-- CPU::Ins_RTI of cpu_instructions.cpp. -/
def Ins_RTI (s : CPUState) (addr : Nat) : CPUState × Nat :=
  let (s, v) := s.PullFromStack
  let s := { s with p := v }
  let s := s.SetStatusFlag .UNUSED true
  let (s, low) := s.PullFromStack
  let (s, high) := s.PullFromStack
  let s := { s with pc := MAKE_WORD low high }
  (s, 5)

/-- CPU::Ins_RTS of cpu_instructions.cpp: the implementation returns
`word + 1` (the documentation comment in the source says minus one). -/
def Ins_RTS (s : CPUState) (addr : Nat) : CPUState × Nat :=
  let (s, low) := s.PullFromStack
  let (s, high) := s.PullFromStack
  let s := { s with pc := (MAKE_WORD low high + 1) % 65536 }
  (s, 5)

/-- CPU::Ins_SBC of cpu_instructions.cpp, exactly as written in the
source.  Decimal branch: `temp` is a C int (embedded as Int); the code
adds 2 to a negative temp ("Hack: Correct for wrap around"), splits
`std::abs(temp)` into digits (C++ `/` truncates toward zero, so
`std::abs(temp / 100)` equals `temp.natAbs / 100`), complements the
digits when temp is negative, and sets C to `temp > 0`.  Binary branch:
after `acc + (val ^ 0xFF) + carry` the code increments the result when
its high byte is zero ("Correct for wrap around") and sets C to
`result < 0xFF`. -/
def Ins_SBC (s : CPUState) (addr : Nat) : CPUState × Nat :=
  let (s, result) :=
    if s.HasStatusFlag .DECIMAL then
      let acc_i : Int := ((s.acc &&& 0xF) + (((s.acc >>> 4) &&& 0xF) * 10) : Nat)
      let val := s.FetchData addr
      let val_i : Int := ((val &&& 0xF) + (((val >>> 4) &&& 0xF) * 10) : Nat)
      let temp : Int := acc_i - val_i - (if s.HasStatusFlag .CARRY then 0 else 1)
      let temp := if temp < 0 then temp + 2 else temp
      let hundreds := temp.natAbs / 100
      let tens := (temp.natAbs - hundreds * 100) / 10
      let ones := temp.natAbs - hundreds * 100 - tens * 10
      let tens := if temp < 0 then 9 - tens else tens
      let ones := if temp < 0 then 9 - ones else ones
      let result := (tens <<< 4) ||| ones
      (s.SetStatusFlag .CARRY (temp > 0), result)
    else
      let carry := s.GetStatusFlag .CARRY
      let acc := s.acc
      let val := s.FetchData addr
      let result := acc + (val ^^^ 0xFF) + carry
      let result := if result &&& 0xFF00 = 0 then result + 1 else result
      let s := s.SetStatusFlag .CARRY (result < 0xFF)
      let s := s.SetStatusFlag .INT_OVERFLOW
        ((((0xFFFF ^^^ (acc ^^^ val)) &&& (acc ^^^ result)) &&& 0x0080) != 0)
      (s, result)
  let s := s.SetStatusFlag .ZERO (GET_LOW_BYTE result = 0)
  let s := s.SetStatusFlag .NEGATIVE (IS_NEGATIVE result)
  ({ s with acc := GET_LOW_BYTE result }, 1)

/-- CPU::Ins_SEC of cpu_instructions.cpp. -/
def Ins_SEC (s : CPUState) (addr : Nat) : CPUState × Nat :=
  (s.SetStatusFlag .CARRY true, 1)

/-- CPU::Ins_SED of cpu_instructions.cpp. -/
def Ins_SED (s : CPUState) (addr : Nat) : CPUState × Nat :=
  (s.SetStatusFlag .DECIMAL true, 1)

/-- CPU::Ins_SEI of cpu_instructions.cpp. -/
def Ins_SEI (s : CPUState) (addr : Nat) : CPUState × Nat :=
  (s.SetStatusFlag .INTERRUPT true, 1)

/-- CPU::Ins_STA of cpu_instructions.cpp. -/
def Ins_STA (s : CPUState) (addr : Nat) : CPUState × Nat :=
  (s.WriteByte addr s.acc, 1)

/-- CPU::Ins_STX of cpu_instructions.cpp. -/
def Ins_STX (s : CPUState) (addr : Nat) : CPUState × Nat :=
  (s.WriteByte addr s.x, 1)

/-- CPU::Ins_STY of cpu_instructions.cpp. -/
def Ins_STY (s : CPUState) (addr : Nat) : CPUState × Nat :=
  (s.WriteByte addr s.y, 1)

/-- CPU::Ins_TAX of cpu_instructions.cpp. -/
def Ins_TAX (s : CPUState) (addr : Nat) : CPUState × Nat :=
  let s := { s with x := s.acc }
  let s := s.SetStatusFlag .ZERO (s.x = 0)
  let s := s.SetStatusFlag .NEGATIVE (IS_NEGATIVE s.x)
  (s, 1)

/-- CPU::Ins_TAY of cpu_instructions.cpp. -/
def Ins_TAY (s : CPUState) (addr : Nat) : CPUState × Nat :=
  let s := { s with y := s.acc }
  let s := s.SetStatusFlag .ZERO (s.y = 0)
  let s := s.SetStatusFlag .NEGATIVE (IS_NEGATIVE s.y)
  (s, 1)

/-- CPU::Ins_TSX of cpu_instructions.cpp. -/
def Ins_TSX (s : CPUState) (addr : Nat) : CPUState × Nat :=
  let s := { s with x := s.sp }
  let s := s.SetStatusFlag .ZERO (s.x = 0)
  let s := s.SetStatusFlag .NEGATIVE (IS_NEGATIVE s.x)
  (s, 1)

/-- CPU::Ins_TXA of cpu_instructions.cpp. -/
def Ins_TXA (s : CPUState) (addr : Nat) : CPUState × Nat :=
  let s := { s with acc := s.x }
  let s := s.SetStatusFlag .ZERO (s.acc = 0)
  let s := s.SetStatusFlag .NEGATIVE (IS_NEGATIVE s.acc)
  (s, 1)

/-- CPU::Ins_TXS of cpu_instructions.cpp. -/
def Ins_TXS (s : CPUState) (addr : Nat) : CPUState × Nat :=
  ({ s with sp := s.x }, 1)

/-- CPU::Ins_TYA of cpu_instructions.cpp. -/
def Ins_TYA (s : CPUState) (addr : Nat) : CPUState × Nat :=
  let s := { s with acc := s.y }
  let s := s.SetStatusFlag .ZERO (s.acc = 0)
  let s := s.SetStatusFlag .NEGATIVE (IS_NEGATIVE s.acc)
  (s, 1)

/-- CPU::ExecuteInstruction of cpu_instructions.cpp: dispatch on the
decoded mnemonic; the ILL arm logs and falls through to `return 0`. -/
def ExecuteInstruction (s : CPUState) (instr : Instruction) (addr : Nat) : CPUState × Nat :=
  match instr with
  | .ILL => (s, 0)
  | .ADC => s.Ins_ADC addr
  | .AND => s.Ins_AND addr
  | .ASL => s.Ins_ASL addr
  | .BCC => s.Ins_BCC addr
  | .BCS => s.Ins_BCS addr
  | .BEQ => s.Ins_BEQ addr
  | .BIT => s.Ins_BIT addr
  | .BMI => s.Ins_BMI addr
  | .BNE => s.Ins_BNE addr
  | .BPL => s.Ins_BPL addr
  | .BRK => s.Ins_BRK addr
  | .BVC => s.Ins_BVC addr
  | .BVS => s.Ins_BVS addr
  | .CLC => s.Ins_CLC addr
  | .CLD => s.Ins_CLD addr
  | .CLI => s.Ins_CLI addr
  | .CLV => s.Ins_CLV addr
  | .CMP => s.Ins_CMP addr
  | .CPX => s.Ins_CPX addr
  | .CPY => s.Ins_CPY addr
  | .DEC => s.Ins_DEC addr
  | .DEX => s.Ins_DEX addr
  | .DEY => s.Ins_DEY addr
  | .EOR => s.Ins_EOR addr
  | .INC => s.Ins_INC addr
  | .INX => s.Ins_INX addr
  | .INY => s.Ins_INY addr
  | .JMP => s.Ins_JMP addr
  | .JSR => s.Ins_JSR addr
  | .LDA => s.Ins_LDA addr
  | .LDX => s.Ins_LDX addr
  | .LDY => s.Ins_LDY addr
  | .LSR => s.Ins_LSR addr
  | .NOP => s.Ins_NOP addr
  | .ORA => s.Ins_ORA addr
  | .PHA => s.Ins_PHA addr
  | .PHP => s.Ins_PHP addr
  | .PLA => s.Ins_PLA addr
  | .PLP => s.Ins_PLP addr
  | .ROL => s.Ins_ROL addr
  | .ROR => s.Ins_ROR addr
  | .RTI => s.Ins_RTI addr
  | .RTS => s.Ins_RTS addr
  | .SBC => s.Ins_SBC addr
  | .SEC => s.Ins_SEC addr
  | .SED => s.Ins_SED addr
  | .SEI => s.Ins_SEI addr
  | .STA => s.Ins_STA addr
  | .STX => s.Ins_STX addr
  | .STY => s.Ins_STY addr
  | .TAX => s.Ins_TAX addr
  | .TAY => s.Ins_TAY addr
  | .TSX => s.Ins_TSX addr
  | .TXA => s.Ins_TXA addr
  | .TXS => s.Ins_TXS addr
  | .TYA => s.Ins_TYA addr

end CPUState

/-- Rows 0x00 through 0x1F of the master instruction table
initializer of instructions.cpp (split into slices of at most 32 rows to
keep elaboration fast; `InstructionDetails` below concatenates them in
order). -/
def InstructionDetailsRows0 : List InstructionDetail := [
  ⟨0x00, .BRK, .IMP, 1, 7, false⟩,
  ⟨0x01, .ORA, .INX, 2, 6, false⟩,
  ⟨0x02, .ILL, .ILL, 1, 2, false⟩,
  ⟨0x03, .ILL, .ILL, 1, 2, false⟩,
  ⟨0x04, .ILL, .ILL, 1, 2, false⟩,
  ⟨0x05, .ORA, .ZPG, 2, 3, false⟩,
  ⟨0x06, .ASL, .ZPG, 2, 5, false⟩,
  ⟨0x07, .ILL, .ILL, 1, 2, false⟩,
  ⟨0x08, .PHP, .IMP, 1, 3, false⟩,
  ⟨0x09, .ORA, .IMM, 2, 2, false⟩,
  ⟨0x0A, .ASL, .ACC, 1, 2, false⟩,
  ⟨0x0b, .ILL, .ILL, 1, 2, false⟩,
  ⟨0x0c, .ILL, .ILL, 1, 2, false⟩,
  ⟨0x0D, .ORA, .ABS, 3, 4, false⟩,
  ⟨0x0E, .ASL, .ABS, 3, 6, false⟩,
  ⟨0x0f, .ILL, .ILL, 1, 2, false⟩,
  ⟨0x10, .BPL, .REL, 2, 2, true⟩,
  ⟨0x11, .ORA, .INY, 2, 5, true⟩,
  ⟨0x12, .ILL, .ILL, 1, 2, false⟩,
  ⟨0x13, .ILL, .ILL, 1, 2, false⟩,
  ⟨0x14, .ILL, .ILL, 1, 2, false⟩,
  ⟨0x15, .ORA, .ZPX, 2, 4, false⟩,
  ⟨0x16, .ASL, .ZPX, 2, 6, false⟩,
  ⟨0x17, .ILL, .ILL, 1, 2, false⟩,
  ⟨0x18, .CLC, .IMP, 1, 2, false⟩,
  ⟨0x19, .ORA, .ABY, 3, 4, true⟩,
  ⟨0x1a, .ILL, .ILL, 1, 2, false⟩,
  ⟨0x1b, .ILL, .ILL, 1, 2, false⟩,
  ⟨0x1c, .ILL, .ILL, 1, 2, false⟩,
  ⟨0x1D, .ORA, .ABX, 3, 4, true⟩,
  ⟨0x1E, .ASL, .ABX, 3, 7, false⟩,
  ⟨0x1f, .ILL, .ILL, 1, 2, false⟩
]

/-- Rows 0x20 through 0x3F of the master instruction table
initializer of instructions.cpp (split into slices of at most 32 rows to
keep elaboration fast; `InstructionDetails` below concatenates them in
order). -/
def InstructionDetailsRows1 : List InstructionDetail := [
  ⟨0x20, .JSR, .ABS, 3, 6, false⟩,
  ⟨0x21, .AND, .INX, 2, 6, false⟩,
  ⟨0x22, .ILL, .ILL, 1, 2, false⟩,
  ⟨0x23, .ILL, .ILL, 1, 2, false⟩,
  ⟨0x24, .BIT, .ZPG, 2, 3, false⟩,
  ⟨0x25, .AND, .ZPG, 2, 3, false⟩,
  ⟨0x26, .ROL, .ZPG, 2, 5, false⟩,
  ⟨0x27, .ILL, .ILL, 1, 2, false⟩,
  ⟨0x28, .PLP, .IMP, 1, 4, false⟩,
  ⟨0x29, .AND, .IMM, 2, 2, false⟩,
  ⟨0x2A, .ROL, .ACC, 1, 2, false⟩,
  ⟨0x2b, .ILL, .ILL, 1, 2, false⟩,
  ⟨0x2C, .BIT, .ABS, 3, 4, false⟩,
  ⟨0x2D, .AND, .ABS, 3, 4, false⟩,
  ⟨0x2E, .ROL, .ABS, 3, 6, false⟩,
  ⟨0x2f, .ILL, .ILL, 1, 2, false⟩,
  ⟨0x30, .BMI, .REL, 2, 2, true⟩,
  ⟨0x31, .AND, .INY, 2, 5, true⟩,
  ⟨0x32, .ILL, .ILL, 1, 2, false⟩,
  ⟨0x33, .ILL, .ILL, 1, 2, false⟩,
  ⟨0x34, .ILL, .ILL, 1, 2, false⟩,
  ⟨0x35, .AND, .ZPX, 2, 4, false⟩,
  ⟨0x36, .ROL, .ZPX, 2, 6, false⟩,
  ⟨0x37, .ILL, .ILL, 1, 2, false⟩,
  ⟨0x38, .SEC, .IMP, 1, 2, false⟩,
  ⟨0x39, .AND, .ABY, 3, 4, true⟩,
  ⟨0x3a, .ILL, .ILL, 1, 2, false⟩,
  ⟨0x3b, .ILL, .ILL, 1, 2, false⟩,
  ⟨0x3c, .ILL, .ILL, 1, 2, false⟩,
  ⟨0x3D, .AND, .ABX, 3, 4, true⟩,
  ⟨0x3E, .ROL, .ABX, 3, 7, false⟩,
  ⟨0x3f, .ILL, .ILL, 1, 2, false⟩
]

/-- Rows 0x40 through 0x5F of the master instruction table
initializer of instructions.cpp (split into slices of at most 32 rows to
keep elaboration fast; `InstructionDetails` below concatenates them in
order). -/
def InstructionDetailsRows2 : List InstructionDetail := [
  ⟨0x40, .RTI, .IMP, 1, 6, false⟩,
  ⟨0x41, .EOR, .INX, 2, 6, false⟩,
  ⟨0x42, .ILL, .ILL, 1, 2, false⟩,
  ⟨0x43, .ILL, .ILL, 1, 2, false⟩,
  ⟨0x44, .ILL, .ILL, 1, 2, false⟩,
  ⟨0x45, .EOR, .ZPG, 2, 3, false⟩,
  ⟨0x46, .LSR, .ZPG, 2, 5, false⟩,
  ⟨0x47, .ILL, .ILL, 1, 2, false⟩,
  ⟨0x48, .PHA, .IMP, 1, 3, false⟩,
  ⟨0x49, .EOR, .IMM, 2, 2, false⟩,
  ⟨0x4A, .LSR, .ACC, 1, 2, false⟩,
  ⟨0x4b, .ILL, .ILL, 1, 2, false⟩,
  ⟨0x4C, .JMP, .ABS, 3, 3, false⟩,
  ⟨0x4D, .EOR, .ABS, 3, 4, false⟩,
  ⟨0x4E, .LSR, .ABS, 3, 6, false⟩,
  ⟨0x4f, .ILL, .ILL, 1, 2, false⟩,
  ⟨0x50, .BVC, .REL, 2, 2, true⟩,
  ⟨0x51, .EOR, .INY, 2, 5, true⟩,
  ⟨0x52, .ILL, .ILL, 1, 2, false⟩,
  ⟨0x53, .ILL, .ILL, 1, 2, false⟩,
  ⟨0x54, .ILL, .ILL, 1, 2, false⟩,
  ⟨0x55, .EOR, .ZPX, 2, 4, false⟩,
  ⟨0x56, .LSR, .ZPX, 2, 6, false⟩,
  ⟨0x57, .ILL, .ILL, 1, 2, false⟩,
  ⟨0x58, .CLI, .IMP, 1, 2, false⟩,
  ⟨0x59, .EOR, .ABY, 3, 4, true⟩,
  ⟨0x5a, .ILL, .ILL, 1, 2, false⟩,
  ⟨0x5b, .ILL, .ILL, 1, 2, false⟩,
  ⟨0x5c, .ILL, .ILL, 1, 2, false⟩,
  ⟨0x5D, .EOR, .ABX, 3, 4, true⟩,
  ⟨0x5E, .LSR, .ABX, 3, 7, false⟩,
  ⟨0x5f, .ILL, .ILL, 1, 2, false⟩
]

/-- Rows 0x60 through 0x7F of the master instruction table
initializer of instructions.cpp (split into slices of at most 32 rows to
keep elaboration fast; `InstructionDetails` below concatenates them in
order). -/
def InstructionDetailsRows3 : List InstructionDetail := [
  ⟨0x60, .RTS, .IMP, 1, 6, false⟩,
  ⟨0x61, .ADC, .INX, 2, 6, false⟩,
  ⟨0x62, .ILL, .ILL, 1, 2, false⟩,
  ⟨0x63, .ILL, .ILL, 1, 2, false⟩,
  ⟨0x64, .ILL, .ILL, 1, 2, false⟩,
  ⟨0x65, .ADC, .ZPG, 2, 3, false⟩,
  ⟨0x66, .ROR, .ZPG, 2, 5, false⟩,
  ⟨0x67, .ILL, .ILL, 1, 2, false⟩,
  ⟨0x68, .PLA, .IMP, 1, 4, false⟩,
  ⟨0x69, .ADC, .IMM, 2, 2, false⟩,
  ⟨0x6A, .ROR, .ACC, 1, 2, false⟩,
  ⟨0x6b, .ILL, .ILL, 1, 2, false⟩,
  ⟨0x6C, .JMP, .IND, 3, 5, false⟩,
  ⟨0x6D, .ADC, .ABS, 3, 4, false⟩,
  ⟨0x6E, .ROR, .ABS, 3, 6, false⟩,
  ⟨0x6f, .ILL, .ILL, 1, 2, false⟩,
  ⟨0x70, .BVC, .REL, 2, 2, true⟩,
  ⟨0x71, .ADC, .INY, 2, 5, true⟩,
  ⟨0x72, .ILL, .ILL, 1, 2, false⟩,
  ⟨0x73, .ILL, .ILL, 1, 2, false⟩,
  ⟨0x74, .ILL, .ILL, 1, 2, false⟩,
  ⟨0x75, .ADC, .ZPX, 2, 4, false⟩,
  ⟨0x76, .ROR, .ZPX, 2, 6, false⟩,
  ⟨0x77, .ILL, .ILL, 1, 2, false⟩,
  ⟨0x78, .SEI, .IMP, 1, 2, false⟩,
  ⟨0x79, .ADC, .ABY, 3, 4, true⟩,
  ⟨0x7a, .ILL, .ILL, 1, 2, false⟩,
  ⟨0x7b, .ILL, .ILL, 1, 2, false⟩,
  ⟨0x7c, .ILL, .ILL, 1, 2, false⟩,
  ⟨0x7D, .ADC, .ABX, 3, 4, true⟩,
  ⟨0x7E, .ROR, .ABX, 3, 7, false⟩,
  ⟨0x7f, .ILL, .ILL, 1, 2, false⟩
]

/-- Rows 0x80 through 0x9F of the master instruction table
initializer of instructions.cpp (split into slices of at most 32 rows to
keep elaboration fast; `InstructionDetails` below concatenates them in
order). -/
def InstructionDetailsRows4 : List InstructionDetail := [
  ⟨0x80, .ILL, .ILL, 1, 2, false⟩,
  ⟨0x81, .STA, .INX, 2, 6, false⟩,
  ⟨0x82, .ILL, .ILL, 1, 2, false⟩,
  ⟨0x83, .ILL, .ILL, 1, 2, false⟩,
  ⟨0x84, .STY, .ZPG, 2, 3, false⟩,
  ⟨0x85, .STA, .ZPG, 2, 3, false⟩,
  ⟨0x86, .STX, .ZPG, 2, 3, false⟩,
  ⟨0x87, .ILL, .ILL, 1, 2, false⟩,
  ⟨0x88, .DEY, .IMP, 1, 2, false⟩,
  ⟨0x89, .ILL, .ILL, 1, 2, false⟩,
  ⟨0x8A, .TXA, .IMP, 1, 2, false⟩,
  ⟨0x8b, .ILL, .ILL, 1, 2, false⟩,
  ⟨0x8C, .STY, .ABS, 3, 4, false⟩,
  ⟨0x8D, .STA, .ABS, 3, 4, false⟩,
  ⟨0x8E, .STX, .ABS, 3, 4, false⟩,
  ⟨0x8f, .ILL, .ILL, 1, 2, false⟩,
  ⟨0x90, .BCC, .REL, 2, 2, true⟩,
  ⟨0x91, .STA, .INY, 2, 6, false⟩,
  ⟨0x92, .ILL, .ILL, 1, 2, false⟩,
  ⟨0x93, .ILL, .ILL, 1, 2, false⟩,
  ⟨0x94, .STY, .ZPX, 2, 4, false⟩,
  ⟨0x95, .STA, .ZPX, 2, 4, false⟩,
  ⟨0x96, .STX, .ZPY, 2, 4, false⟩,
  ⟨0x97, .ILL, .ILL, 1, 2, false⟩,
  ⟨0x98, .TYA, .IMP, 1, 2, false⟩,
  ⟨0x99, .STA, .ABY, 3, 5, false⟩,
  ⟨0x9A, .TXS, .IMP, 1, 2, false⟩,
  ⟨0x9b, .ILL, .ILL, 1, 2, false⟩,
  ⟨0x9c, .ILL, .ILL, 1, 2, false⟩,
  ⟨0x9D, .STA, .ABX, 3, 5, false⟩,
  ⟨0x9e, .ILL, .ILL, 1, 2, false⟩,
  ⟨0x9f, .ILL, .ILL, 1, 2, false⟩
]

/-- Rows 0xA0 through 0xBF of the master instruction table
initializer of instructions.cpp (split into slices of at most 32 rows to
keep elaboration fast; `InstructionDetails` below concatenates them in
order). -/
def InstructionDetailsRows5 : List InstructionDetail := [
  ⟨0xA0, .LDY, .IMM, 2, 2, false⟩,
  ⟨0xA1, .LDA, .INX, 2, 6, false⟩,
  ⟨0xA2, .LDX, .IMM, 2, 2, false⟩,
  ⟨0xa3, .ILL, .ILL, 1, 2, false⟩,
  ⟨0xA4, .LDY, .ZPG, 2, 3, false⟩,
  ⟨0xA5, .LDA, .ZPG, 2, 3, false⟩,
  ⟨0xA6, .LDX, .ZPG, 2, 3, false⟩,
  ⟨0xa7, .ILL, .ILL, 1, 2, false⟩,
  ⟨0xA8, .TAY, .IMP, 1, 2, false⟩,
  ⟨0xA9, .LDA, .IMM, 2, 2, false⟩,
  ⟨0xAA, .TAX, .IMP, 1, 2, false⟩,
  ⟨0xab, .ILL, .ILL, 1, 2, false⟩,
  ⟨0xAC, .LDY, .ABS, 3, 4, false⟩,
  ⟨0xAD, .LDA, .ABS, 3, 4, false⟩,
  ⟨0xAE, .LDX, .ABS, 3, 4, false⟩,
  ⟨0xaf, .ILL, .ILL, 1, 2, false⟩,
  ⟨0xB0, .BCS, .REL, 2, 2, true⟩,
  ⟨0xB1, .LDA, .INY, 2, 5, true⟩,
  ⟨0xb2, .ILL, .ILL, 1, 2, false⟩,
  ⟨0xb3, .ILL, .ILL, 1, 2, false⟩,
  ⟨0xB4, .LDY, .ZPX, 2, 4, false⟩,
  ⟨0xB5, .LDA, .ZPX, 2, 4, false⟩,
  ⟨0xB6, .LDX, .ZPY, 2, 4, false⟩,
  ⟨0xb7, .ILL, .ILL, 1, 2, false⟩,
  ⟨0xB8, .CLV, .IMP, 1, 2, false⟩,
  ⟨0xB9, .LDA, .ABY, 3, 4, true⟩,
  ⟨0xBA, .TSX, .IMP, 1, 2, false⟩,
  ⟨0xbb, .ILL, .ILL, 1, 2, false⟩,
  ⟨0xBC, .LDY, .ABX, 3, 4, true⟩,
  ⟨0xBD, .LDA, .ABX, 3, 4, true⟩,
  ⟨0xBE, .LDX, .ABY, 3, 4, true⟩,
  ⟨0xbf, .ILL, .ILL, 1, 2, false⟩
]

/-- Rows 0xC0 through 0xDF of the master instruction table
initializer of instructions.cpp (split into slices of at most 32 rows to
keep elaboration fast; `InstructionDetails` below concatenates them in
order). -/
def InstructionDetailsRows6 : List InstructionDetail := [
  ⟨0xC0, .CPY, .IMM, 2, 2, false⟩,
  ⟨0xC1, .CMP, .INX, 2, 6, false⟩,
  ⟨0xc2, .ILL, .ILL, 1, 2, false⟩,
  ⟨0xc3, .ILL, .ILL, 1, 2, false⟩,
  ⟨0xC4, .CPY, .ZPG, 2, 3, false⟩,
  ⟨0xC5, .CMP, .ZPG, 2, 3, false⟩,
  ⟨0xC6, .DEC, .ZPG, 2, 5, false⟩,
  ⟨0xc7, .ILL, .ILL, 1, 2, false⟩,
  ⟨0xC8, .INY, .IMP, 1, 2, false⟩,
  ⟨0xC9, .CMP, .IMM, 2, 2, false⟩,
  ⟨0xCA, .DEX, .IMP, 1, 2, false⟩,
  ⟨0xcb, .ILL, .ILL, 1, 2, false⟩,
  ⟨0xCC, .CPY, .ABS, 3, 4, false⟩,
  ⟨0xCD, .CMP, .ABS, 3, 4, false⟩,
  ⟨0xCE, .DEC, .ABS, 3, 6, false⟩,
  ⟨0xcf, .ILL, .ILL, 1, 2, false⟩,
  ⟨0xD0, .BNE, .REL, 2, 2, true⟩,
  ⟨0xD1, .CMP, .INY, 2, 5, true⟩,
  ⟨0xd2, .ILL, .ILL, 1, 2, false⟩,
  ⟨0xd3, .ILL, .ILL, 1, 2, false⟩,
  ⟨0xd4, .ILL, .ILL, 1, 2, false⟩,
  ⟨0xD5, .CMP, .ZPX, 2, 4, false⟩,
  ⟨0xD6, .DEC, .ZPX, 2, 6, false⟩,
  ⟨0xd7, .ILL, .ILL, 1, 2, false⟩,
  ⟨0xD8, .CLD, .IMP, 1, 2, false⟩,
  ⟨0xD9, .CMP, .ABY, 3, 4, true⟩,
  ⟨0xda, .ILL, .ILL, 1, 2, false⟩,
  ⟨0xdb, .ILL, .ILL, 1, 2, false⟩,
  ⟨0xdc, .ILL, .ILL, 1, 2, false⟩,
  ⟨0xDD, .CMP, .ABX, 3, 4, true⟩,
  ⟨0xDE, .DEC, .ABX, 3, 7, false⟩,
  ⟨0xdf, .ILL, .ILL, 1, 2, false⟩
]

/-- Rows 0xE0 through 0xFE of the master instruction table
initializer of instructions.cpp (split into slices of at most 32 rows to
keep elaboration fast; `InstructionDetails` below concatenates them in
order). -/
def InstructionDetailsRows7 : List InstructionDetail := [
  ⟨0xE0, .CPX, .IMM, 2, 2, false⟩,
  ⟨0xE1, .SBC, .INX, 2, 6, false⟩,
  ⟨0xe2, .ILL, .ILL, 1, 2, false⟩,
  ⟨0xe3, .ILL, .ILL, 1, 2, false⟩,
  ⟨0xE4, .CPX, .ZPG, 2, 3, false⟩,
  ⟨0xE5, .SBC, .ZPG, 2, 3, false⟩,
  ⟨0xE6, .INC, .ZPG, 2, 5, false⟩,
  ⟨0xe7, .ILL, .ILL, 1, 2, false⟩,
  ⟨0xE8, .INX, .IMP, 1, 2, false⟩,
  ⟨0xE9, .SBC, .IMM, 2, 2, false⟩,
  ⟨0xEA, .NOP, .IMP, 1, 2, false⟩,
  ⟨0xeb, .ILL, .ILL, 1, 2, false⟩,
  ⟨0xEC, .CPX, .ABS, 3, 4, false⟩,
  ⟨0xED, .SBC, .ABS, 3, 4, false⟩,
  ⟨0xEE, .INC, .ABS, 3, 6, false⟩,
  ⟨0xef, .ILL, .ILL, 1, 2, false⟩,
  ⟨0xF0, .BEQ, .REL, 2, 2, true⟩,
  ⟨0xF1, .SBC, .INY, 2, 5, true⟩,
  ⟨0xf2, .ILL, .ILL, 1, 2, false⟩,
  ⟨0xf3, .ILL, .ILL, 1, 2, false⟩,
  ⟨0xf4, .ILL, .ILL, 1, 2, false⟩,
  ⟨0xF5, .SBC, .ZPX, 2, 4, false⟩,
  ⟨0xF6, .INC, .ZPX, 2, 6, false⟩,
  ⟨0xf7, .ILL, .ILL, 1, 2, false⟩,
  ⟨0xF8, .SED, .IMP, 1, 2, false⟩,
  ⟨0xF9, .SBC, .ABY, 3, 4, true⟩,
  ⟨0xfa, .ILL, .ILL, 1, 2, false⟩,
  ⟨0xfb, .ILL, .ILL, 1, 2, false⟩,
  ⟨0xfc, .ILL, .ILL, 1, 2, false⟩,
  ⟨0xFD, .SBC, .ABX, 3, 4, true⟩,
  ⟨0xFE, .INC, .ABX, 3, 7, false⟩
]

/-- The master instruction table InstructionDetails of instructions.cpp:
the 255 rows written in the source initializer, for opcodes 0x00 through
0xFE, in source order.  The array type is
`std::array<InstructionDetail, MAX_INSTRUCTIONS>` with MAX_INSTRUCTIONS =
255, so there is no row for opcode 0xFF. -/
def InstructionDetails : List InstructionDetail :=
  InstructionDetailsRows0 ++ InstructionDetailsRows1 ++ InstructionDetailsRows2 ++
  InstructionDetailsRows3 ++ InstructionDetailsRows4 ++ InstructionDetailsRows5 ++
  InstructionDetailsRows6 ++ InstructionDetailsRows7

/-- CPU::Tick of cpu.cpp: consume one cycle when any remain, otherwise
fetch the opcode at PC, look up the instruction detail, run the
addressing evaluator and the instruction executor, credit the cycles,
force the unused flag, and report whether cycles remain.  The source
indexes `InstructionDetails[opcode]`; for opcode 0xFF that read is past
the end of the 255-element array (see the C1 theorem), so the embedding
totalises the lookup with an ILL row. -/
def CPUState.Tick (s : CPUState) : CPUState × Bool :=
  let s := { s with cyclesExecuted := s.cyclesExecuted + 1 }
  if s.cyclesRem > 0 then
    let s := { s with cyclesRem := s.cyclesRem - 1 }
    (s, s.cyclesRem > 0)
  else
    let opcode := s.ReadByte s.pc
    let s := { s with pc := (s.pc + 1) % 65536 }
    let instruction := InstructionDetails.getD opcode ⟨0, .ILL, .ILL, 0, 0, false⟩
    let (s, addr, countAddressing) := s.ExecuteAddressing instruction.addressing
    let (s, countInstruction) := s.ExecuteInstruction instruction.instruction addr
    let s := { s with cyclesRem := s.cyclesRem + countAddressing + countInstruction }
    let s := s.SetStatusFlag .UNUSED true
    (s, s.cyclesRem > 0)

/-- CPU::Reset of cpu.cpp: clear A, X, Y, load PC from the reset vector,
set SP to 0xFD, and set P to zero with only the unused bit
(`0 | (byte)StatusFlag::UNUSED`). -/
def CPUState.Reset (s : CPUState) : CPUState :=
  let s := { s with acc := 0, x := 0, y := 0 }
  let s := { s with pc := s.ReadWord ADDRESS_RESET_VECTOR }
  let s := { s with sp := 0xFD }
  { s with p := 0 ||| StatusFlag.UNUSED.mask }

/-- CPU::IRQ of cpu.cpp: ignored when the interrupt-disable flag is set;
otherwise push PC high then low, set B=0, I=1, U=1, push P, load PC from
the IRQ vector and credit 7 cycles. -/
def CPUState.IRQ (s : CPUState) : CPUState :=
  if s.HasStatusFlag .INTERRUPT = true then s
  else
    let s := s.PushToStack (GET_HIGH_BYTE s.pc)
    let s := s.PushToStack (GET_LOW_BYTE s.pc)
    let s := s.SetStatusFlag .BREAK false
    let s := s.SetStatusFlag .INTERRUPT true
    let s := s.SetStatusFlag .UNUSED true
    let s := s.PushToStack s.p
    let s := { s with pc := s.ReadWord ADDRESS_IRQ_VECTOR }
    { s with cyclesRem := s.cyclesRem + 7 }

/-- CPU::NMI of cpu.cpp: not maskable; same push sequence as IRQ, PC from
the NMI vector, 8 cycles. -/
def CPUState.NMI (s : CPUState) : CPUState :=
  let s := s.PushToStack (GET_HIGH_BYTE s.pc)
  let s := s.PushToStack (GET_LOW_BYTE s.pc)
  let s := s.SetStatusFlag .BREAK false
  let s := s.SetStatusFlag .INTERRUPT true
  let s := s.SetStatusFlag .UNUSED true
  let s := s.PushToStack s.p
  let s := { s with pc := s.ReadWord ADDRESS_NMI_VECTOR }
  { s with cyclesRem := s.cyclesRem + 8 }

/-- The CPU states reachable from a Reset (applied to an arbitrary prior
state and memory image) by any sequence of Tick, IRQ and NMI calls. -/
inductive Reachable : CPUState → Prop where
  | reset (s : CPUState) : Reachable s.Reset
  | tick {s : CPUState} : Reachable s → Reachable s.Tick.1
  | irq {s : CPUState} : Reachable s → Reachable s.IRQ
  | nmi {s : CPUState} : Reachable s → Reachable s.NMI

/-- The Memory device of memory.h / memory.cpp: the fixed size m_Size and
the backing byte array m_Data (resized to m_Size on construction). -/
structure Memory where
  m_Size : Nat
  m_Data : List Nat

/-- Memory::ReadByte of memory.cpp: the stored byte when the address is
within the device size, otherwise 0. -/
def Memory.ReadByte (m : Memory) (a : Nat) : Nat :=
  if a < m.m_Size then m.m_Data.getD a 0 else 0

/-- Memory::ReadWord of memory.cpp: two single-byte reads; the second
argument `addr.value + 1` is an int converted back through the 16-bit
address union, hence reduced modulo 2^16. -/
def Memory.ReadWord (m : Memory) (a : Nat) : Nat :=
  let low := m.ReadByte a
  let high := m.ReadByte ((a + 1) % 65536)
  MAKE_WORD low high

/-- Branch test of the branching-optimisation block in
Program::CompileString (cpu.cpp): the eight relative-branch mnemonics. -/
def isBranchInstruction (i : Instruction) : Bool :=
  i == .BCC || i == .BCS || i == .BEQ || i == .BMI ||
  i == .BNE || i == .BPL || i == .BVC || i == .BVS

/-- Branching-optimisation block of Program::CompileString (cpu.cpp),
exactly as written in the source: `diff` is `int(startingPCOffset) -
int(instrPC)` — the LOCAL variable startingPCOffset, which stays 0x0200
for the whole compilation, not the resolved operand; when diff lies in
[-126, 129] the mode is forced to REL and the operand word becomes
`static_cast<word>(rel - 2)`, embedded for 0 ≤ rel ≤ 255 as
`(rel + 65534) % 65536`. -/
def branchOptimize (instruction : Instruction) (startingPCOffset instrPC : Nat)
    (addressing : AddressMode) (value : Nat) : AddressMode × Nat :=
  if isBranchInstruction instruction then
    let diff : Int := (startingPCOffset : Int) - (instrPC : Int)
    if -126 ≤ diff ∧ diff ≤ 129 then
      let rel := if diff < 0 then (256 + diff).toNat &&& 0xFF else diff.toNat &&& 0x7F
      (AddressMode.REL, (rel + 65534) % 65536)
    else (addressing, value)
  else (addressing, value)

/-
Scenario states for the concrete evaluations below.  Every scenario uses
the CPU as constructed by the shell: attached to the default 64 KiB
Memory, with a concrete register file and memory image.
-/

/-- Scenario for ASL/LSR with a memory addressing mode: A = 0x55, the
operand was NOT supplied out-of-band (memory mode), and the byte at the
effective address 0x10 is 0x01. -/
def aslScenarioState : CPUState :=
  ⟨0, 0, 0x55, 0, 0, 0, false, 0, 0, 0, fun a => if a = 0x10 then 0x01 else 0⟩

/-- Scenario for SBC in decimal mode (spec end-to-end scenario 5): D flag
set, C flag clear, A = 0x21, immediate operand 0x34 supplied. -/
def sbcDecimalScenarioState : CPUState :=
  ⟨0, 0, 0x21, 0, 0, StatusFlag.DECIMAL.mask, true, 0x34, 0, 0, fun _ => 0⟩

/-- Scenario for a taken branch that stays on page 0x02: PC = 0x0280
after the operand fetch, all flags clear (so BCC is taken), branch offset
0x10. -/
def branchScenarioState : CPUState :=
  ⟨0x0280, 0, 0, 0, 0, 0, false, 0, 0, 0, fun _ => 0⟩

/-- The same branch scenario with the carry flag set, so BCC is not
taken. -/
def branchScenarioStateCarrySet : CPUState :=
  ⟨0x0280, 0, 0, 0, 0, StatusFlag.CARRY.mask, false, 0, 0, 0, fun _ => 0⟩

/-- Scenario for ROR in accumulator mode: the carry flag is set and the
supplied operand byte is 0x00. -/
def rorScenarioState : CPUState :=
  ⟨0, 0, 0, 0, 0, StatusFlag.CARRY.mask, true, 0, 0, 0, fun _ => 0⟩

/-- Scenario for Indexed Indirect (X) addressing: PC = 0x0200, X = 0, the
operand byte at 0x0200 is 0x00, and the zero page holds 0x12 at 0x0000
and 0x34 at 0x0001. -/
def inxScenarioState : CPUState :=
  ⟨0x0200, 0, 0, 0, 0, 0, false, 0, 0, 0,
   fun a => if a = 0 then 0x12 else if a = 1 then 0x34 else 0⟩

set_option maxRecDepth 8000 in
/-- C1.  The static opcode table does NOT have 256 rows: the source
declares `std::array<InstructionDetail, MAX_INSTRUCTIONS>` with
MAX_INSTRUCTIONS = 255 and initialises exactly the 255 rows for opcodes
0x00 through 0xFE, so the fetched opcode byte 0xFF has no table entry
(CPU::Tick's `InstructionDetails[opcode]` reads past the end of the
array for it). -/
theorem c1_opcode_table_has_only_255_rows :
    InstructionDetails.length = MAX_INSTRUCTIONS ∧
    MAX_INSTRUCTIONS = 255 ∧
    InstructionDetails.get? 0xFF = none ∧
    InstructionDetails.get? 0xFE ≠ none := by
  refine ⟨by decide, rfl, by decide, by decide⟩

/-- C2.  For ASL and LSR executed with a memory addressing mode (the
operand was not supplied out-of-band), the handlers do NOT write the
shifted byte back to memory and do NOT leave the accumulator unchanged:
with A = 0x55 and the byte 0x01 at effective address 0x10, Ins_ASL leaves
the memory byte at 0x01 and overwrites A with 0x02, and Ins_LSR likewise
leaves the memory byte untouched and overwrites A with 0x00. -/
theorem c2_asl_lsr_write_accumulator_not_memory :
    ((aslScenarioState.Ins_ASL 0x10).1.acc = 0x02 ∧
     (aslScenarioState.Ins_ASL 0x10).1.mem 0x10 = 0x01 ∧
     (aslScenarioState.Ins_ASL 0x10).1.acc ≠ aslScenarioState.acc) ∧
    ((aslScenarioState.Ins_LSR 0x10).1.acc = 0x00 ∧
     (aslScenarioState.Ins_LSR 0x10).1.mem 0x10 = 0x01 ∧
     (aslScenarioState.Ins_LSR 0x10).1.acc ≠ aslScenarioState.acc) := by
  decide

/-- C4.  Executing SBC in decimal mode with A = 0x21, operand 0x34, the D
flag set and the C flag clear leaves A = 0x87 and the C flag clear, as
the spec's end-to-end scenario 5 states. -/
theorem c4_sbc_bcd_wrap_scenario :
    (sbcDecimalScenarioState.Ins_SBC 0).1.acc = 0x87 ∧
    (sbcDecimalScenarioState.Ins_SBC 0).1.HasStatusFlag .CARRY = false := by
  decide

/-- C5.  A taken branch does NOT add exactly one extra cycle beyond the
untaken cost when the updated PC lies on the same page: with PC = 0x0280
after the operand fetch and offset 0x10, the new PC 0x0290 is on the same
page (high byte 0x02), the untaken BCC costs 1 cycle, yet the taken BCC
costs 3 cycles (two extra), because CPU::Branch compares the page byte of
the new PC against the full word `m_PC & 0xFF00`. -/
theorem c5_taken_branch_same_page_costs_two_extra :
    (branchScenarioState.Ins_BCC 0x10).2 = 3 ∧
    (branchScenarioState.Ins_BCC 0x10).1.pc = 0x0290 ∧
    GET_HIGH_BYTE 0x0290 = GET_HIGH_BYTE 0x0280 ∧
    (branchScenarioStateCarrySet.Ins_BCC 0x10).2 = 1 := by
  decide

/-- C6.  ROR does NOT place the old C flag into bit 7 of the result: with
the carry flag set and operand byte 0x00 the produced byte is 0x00, not
the 0x80 the claim requires, because the source computes
`(value >> 1) | (carry << 8)` in a uint8_t, discarding the carry bit. -/
theorem c6_ror_discards_incoming_carry :
    (rorScenarioState.Ins_ROR 0).1.acc = 0x00 ∧
    ((0x00 >>> 1) ||| (1 <<< 7)) = 0x80 ∧
    (rorScenarioState.Ins_ROR 0).1.acc ≠ 0x80 := by
  decide

/-- C7.  For Indexed Indirect (X) addressing the high byte of the
effective address is NOT read from zero-page address `(t+X+1) & 0xFF`:
with t = 0, X = 0 the source reads it from `(t+X+1) & 0xFF00` = 0x0000
instead of 0x0001, producing effective address 0x1212 where the claimed
reads (low from `(t+X) & 0xFF`, high from `(t+X+1) & 0xFF`) would produce
0x3412. -/
theorem c7_inx_high_byte_read_from_wrong_address :
    inxScenarioState.Addr_INX.2.1 = 0x1212 ∧
    MAKE_WORD (inxScenarioState.ReadByte ((0 + 0) &&& 0xFF))
      (inxScenarioState.ReadByte ((0 + 0 + 1) &&& 0xFF)) = 0x3412 ∧
    inxScenarioState.Addr_INX.2.1 ≠ 0x3412 := by
  decide

/-- C8.  The assembler's branch specialisation does NOT use the distance
to the resolved operand: assembling `BNE $0300` as the second instruction
(instruction location 0x0202, target 0x0300), the displacement to the
target is 0xFE = 254, outside the window [-126, 129], yet the source
computes the window from `startingPCOffset` (0x0200), forces the mode to
Relative and emits operand 252 instead of leaving the absolute operand
0x0300. -/
theorem c8_branch_specialisation_uses_wrong_window :
    branchOptimize .BNE 0x0200 0x0202 .ABS 0x0300 = (.REL, 252) ∧
    ¬((-126 : Int) ≤ (0x0300 : Int) - 0x0202 ∧ ((0x0300 : Int) - 0x0202) ≤ 129) := by
  decide

/-- C10.  For a Memory of the default 64 KiB size, a word read at address
0xFFFF takes its low byte from address 0xFFFF and its high byte from
address 0x0000: the successor address passes back through the 16-bit
address union and wraps modulo 2^16, so both reads are in range. -/
theorem c10_readword_at_ffff_wraps_to_zero (m : Memory) (h : m.m_Size = 65536) :
    m.ReadWord 0xFFFF = MAKE_WORD (m.m_Data.getD 0xFFFF 0) (m.m_Data.getD 0 0) := by
  simp [Memory.ReadWord, Memory.ReadByte, h]

/-- Concrete 64 KiB memory image for the C10 witness: byte 0xCD at
address 0x0000 and 0x00 everywhere else. -/
def c10Memory : Memory := ⟨65536, [0xCD]⟩

/-- C10 witness: the theorem applied to a concrete 64 KiB memory whose
byte at 0x0000 is 0xCD; the word read at 0xFFFF is 0xCD00. -/
theorem c10_readword_at_ffff_wraps_to_zero_witness :
    c10Memory.ReadWord 0xFFFF = MAKE_WORD (c10Memory.m_Data.getD 0xFFFF 0) (c10Memory.m_Data.getD 0 0) ∧
    c10Memory.ReadWord 0xFFFF = 0xCD00 :=
  ⟨c10_readword_at_ffff_wraps_to_zero c10Memory rfl, by decide⟩

/-
Status-flag bit arithmetic.  These lemmas capture how a single
SetStatusFlag call changes (or preserves) each bit of the packed P
register; they are used by the SBC characterisation and by the U-bit
invariant below.
-/

/-- Bit index of each status flag (the exponent of its mask). -/
def StatusFlag.bit : StatusFlag → Nat
  | .CARRY => 0
  | .ZERO => 1
  | .INTERRUPT => 2
  | .DECIMAL => 3
  | .BREAK => 4
  | .UNUSED => 5
  | .INT_OVERFLOW => 6
  | .NEGATIVE => 7

/-- Masking with a flag's mask isolates that flag's bit. -/
lemma and_mask_eq (x : Nat) (g : StatusFlag) :
    x &&& g.mask = (x.testBit (StatusFlag.bit g)).toNat * g.mask := by
  have h : ∀ i : Nat, x &&& 2 ^ i = (x.testBit i).toNat * 2 ^ i := fun i => Nat.and_two_pow x i
  cases g
  · simpa [StatusFlag.mask, StatusFlag.bit] using h 0
  · simpa [StatusFlag.mask, StatusFlag.bit] using h 1
  · simpa [StatusFlag.mask, StatusFlag.bit] using h 2
  · simpa [StatusFlag.mask, StatusFlag.bit] using h 3
  · simpa [StatusFlag.mask, StatusFlag.bit] using h 4
  · simpa [StatusFlag.mask, StatusFlag.bit] using h 5
  · simpa [StatusFlag.mask, StatusFlag.bit] using h 6
  · simpa [StatusFlag.mask, StatusFlag.bit] using h 7

/-- Distinct flags have disjoint masks. -/
lemma maskTestBit (f g : StatusFlag) (hf : f ≠ g) :
    f.mask.testBit (StatusFlag.bit g) = false := by
  cases f <;> cases g <;> first | exact absurd rfl hf | decide

/-- The clear mask `0xFF ^^^ f.mask` keeps every other flag's bit. -/
lemma clearTestBit (f g : StatusFlag) (hf : f ≠ g) :
    (0xFF ^^^ f.mask).testBit (StatusFlag.bit g) = true := by
  cases f <;> cases g <;> first | exact absurd rfl hf | decide

/-- A flag's mask has its own bit set. -/
lemma selfTestBit (f : StatusFlag) : f.mask.testBit (StatusFlag.bit f) = true := by
  cases f <;> decide

/-- The clear mask drops the flag's own bit. -/
lemma clearSelfTestBit (f : StatusFlag) : (0xFF ^^^ f.mask).testBit (StatusFlag.bit f) = false := by
  cases f <;> decide

/-- HasStatusFlag unfolded to the packed register. -/
lemma HasStatusFlag_def (s : CPUState) (f : StatusFlag) :
    s.HasStatusFlag f = (s.p &&& f.mask != 0) := rfl

/-- Setting or clearing one flag leaves every other flag's bit of P
unchanged. -/
lemma p_setFlag_other (s : CPUState) (f g : StatusFlag) (v : Bool) (hf : f ≠ g) :
    (s.SetStatusFlag f v).p &&& g.mask = s.p &&& g.mask := by
  cases v <;>
    simp only [CPUState.SetStatusFlag, Bool.false_eq_true, if_true, if_false, ite_true, ite_false]
  · rw [and_mask_eq, Nat.testBit_land, clearTestBit f g hf, Bool.and_true, and_mask_eq s.p]
  · rw [and_mask_eq, Nat.testBit_lor, maskTestBit f g hf, Bool.or_false, and_mask_eq s.p]

/-- After SetStatusFlag, reading the same flag's bit of P yields the
written value. -/
lemma p_setFlag_self (s : CPUState) (f : StatusFlag) (v : Bool) :
    ((s.SetStatusFlag f v).p &&& f.mask != 0) = v := by
  cases v <;>
    simp only [CPUState.SetStatusFlag, Bool.false_eq_true, if_true, if_false, ite_true, ite_false]
  · rw [and_mask_eq, Nat.testBit_land, clearSelfTestBit f, Bool.and_false]
    simp
  · rw [and_mask_eq, Nat.testBit_lor, selfTestBit f, Bool.or_true]
    cases f <;> simp [StatusFlag.mask]

/-- HasStatusFlag version of `p_setFlag_self`. -/
lemma hasFlag_setFlag_self (s : CPUState) (f : StatusFlag) (v : Bool) :
    (s.SetStatusFlag f v).HasStatusFlag f = v := by
  rw [HasStatusFlag_def, p_setFlag_self]

/-- Pushing to the stack only touches SP and memory, never P. -/
lemma p_PushToStack (s : CPUState) (d : Nat) : (s.PushToStack d).p = s.p := rfl

/-
Claim C3: the binary (D = 0) behaviour of SBC.
-/

/-- CPU state for an SBC with the D flag clear: accumulator `a`, carry
flag `c`, and operand byte `m` supplied out-of-band (immediate-style). -/
def sbcState (a m : Nat) (c : Bool) : CPUState :=
  ⟨0, 0, a, 0, 0, if c then StatusFlag.CARRY.mask else 0, true, m, 0, 0, fun _ => 0⟩

/-- Claim C3 as the specification states it: with D = 0, SBC computes
`A + (~M) + C` in 16 bits, writes the low byte of that sum to A, and sets
the C flag to bit 8 of the 16-bit sum, for every A, M and incoming
carry. -/
def sbcBinaryClaim : Prop :=
  ∀ a m : Nat, ∀ c : Bool, a ≤ 255 → m ≤ 255 →
    ((sbcState a m c).Ins_SBC 0).1.acc = (a + (m ^^^ 0xFF) + (if c then 1 else 0)) % 256 ∧
    ((sbcState a m c).Ins_SBC 0).1.HasStatusFlag .CARRY =
      (a + (m ^^^ 0xFF) + (if c then 1 else 0)).testBit 8

/-- Amended C3, following the source: the 16-bit sum `A + (~M) + C` is
incremented by one when its high byte is zero ("Correct for wrap
around"), A receives the low byte of the adjusted sum, and C is set
exactly when the adjusted sum is below 0xFF. -/
def sbcBinarySpec (a m : Nat) (c : Bool) : Nat × Bool :=
  let t := a + (m ^^^ 0xFF) + (if c then 1 else 0)
  let t2 := if t < 0x100 then t + 1 else t
  (t2 % 256, decide (t2 < 0xFF))

/-- Masking a value with 0xFF is reduction modulo 256. -/
lemma and255 (n : Nat) : n &&& 255 = n % 256 := by
  have := Nat.and_pow_two_sub_one_eq_mod n 8
  norm_num at this
  exact this

set_option maxRecDepth 40000 in
/-- For a byte value, XOR with 0xFF is the one-byte complement. -/
lemma xor255 (m : Nat) (hm : m < 256) : m ^^^ 0xFF = 255 - m := by
  revert m
  decide

set_option maxRecDepth 40000 in
/-- For sums below 512, a zero high byte is the same as being below
256. -/
lemma and_ff00_eq_zero_iff (t : Nat) (ht : t < 512) : (t &&& 0xFF00 = 0) ↔ t < 256 := by
  revert t
  decide

/-- Characterisation of Ins_SBC in binary mode, read off the source: the
raw 16-bit sum, the wrap-around increment, the low byte into A and the
`result < 0xFF` carry. -/
lemma Ins_SBC_binary (s : CPUState) (addr : Nat) (hd : s.HasStatusFlag .DECIMAL = false) :
    (s.Ins_SBC addr).1.acc =
      GET_LOW_BYTE (if (s.acc + (s.FetchData addr ^^^ 0xFF) + s.GetStatusFlag .CARRY) &&& 0xFF00 = 0
        then s.acc + (s.FetchData addr ^^^ 0xFF) + s.GetStatusFlag .CARRY + 1
        else s.acc + (s.FetchData addr ^^^ 0xFF) + s.GetStatusFlag .CARRY) ∧
    (s.Ins_SBC addr).1.HasStatusFlag .CARRY =
      decide ((if (s.acc + (s.FetchData addr ^^^ 0xFF) + s.GetStatusFlag .CARRY) &&& 0xFF00 = 0
        then s.acc + (s.FetchData addr ^^^ 0xFF) + s.GetStatusFlag .CARRY + 1
        else s.acc + (s.FetchData addr ^^^ 0xFF) + s.GetStatusFlag .CARRY) < 0xFF) := by
  simp only [CPUState.Ins_SBC, hd, Bool.false_eq_true, if_false, ite_false]
  refine ⟨trivial, ?_⟩
  have hN := fun (t : CPUState) v => p_setFlag_other t .NEGATIVE .CARRY v (by decide)
  have hZ := fun (t : CPUState) v => p_setFlag_other t .ZERO .CARRY v (by decide)
  have hV := fun (t : CPUState) v => p_setFlag_other t .INT_OVERFLOW .CARRY v (by decide)
  simp only [HasStatusFlag_def, hN, hZ, hV, p_setFlag_self]

/-- C3 counterexample.  The claim is false on the code: at A = 0, M = 0,
C = 0 the claimed low byte of `A + (~M) + C` is 0xFF, but Ins_SBC leaves
A = 0x00 (the source increments the sum when its high byte is zero); and
at A = 0x32, M = 0x11, C = 0 the claimed carry (bit 8 of the sum) is 1,
but Ins_SBC clears C (the source sets C to `result < 0xFF`). -/
theorem c3_sbc_binary_counterexample :
    ¬ sbcBinaryClaim ∧
    ((sbcState 0 0 false).Ins_SBC 0).1.acc = 0x00 ∧
    ((sbcState 0x32 0x11 false).Ins_SBC 0).1.HasStatusFlag .CARRY = false ∧
    (0x32 + (0x11 ^^^ 0xFF) + 0).testBit 8 = true :=
  ⟨fun h => absurd (h 0 0 false (by decide) (by decide)).1 (by decide),
   by decide, by decide, by decide⟩

/-- C3 (amended).  When the D flag is clear, SBC computes the 16-bit sum
`A + (~M) + C`, increments it by one when the sum's high byte is zero,
writes the low byte of the adjusted sum to A, and sets the C flag exactly
when the adjusted sum is below 0xFF — for every value of A, operand M and
incoming carry C. -/
theorem c3_sbc_binary_amended (a m : Nat) (c : Bool) (ha : a ≤ 255) (hm : m ≤ 255) :
    (((sbcState a m c).Ins_SBC 0).1.acc,
     ((sbcState a m c).Ins_SBC 0).1.HasStatusFlag .CARRY) = sbcBinarySpec a m c := by
  have hxor := xor255 m (by omega)
  cases c
  · obtain ⟨h1, h2⟩ := Ins_SBC_binary (sbcState a m false) 0
      (by simp [sbcState, CPUState.HasStatusFlag, StatusFlag.mask])
    have hacc : (sbcState a m false).acc = a := rfl
    have hfetch : (sbcState a m false).FetchData 0 = m := rfl
    have hcarry : (sbcState a m false).GetStatusFlag .CARRY = 0 := by
      simp [sbcState, CPUState.GetStatusFlag, StatusFlag.mask]
    rw [hacc, hfetch, hcarry, hxor, add_zero] at h1 h2
    have hcond : ((a + (255 - m)) &&& 0xFF00 = 0) = (a + (255 - m) < 256) :=
      propext (and_ff00_eq_zero_iff _ (by omega))
    simp only [hcond] at h1 h2
    simp only [sbcBinarySpec, Bool.false_eq_true, if_false, add_zero, hxor, Prod.mk.injEq]
    exact ⟨by rw [h1, GET_LOW_BYTE, and255], h2⟩
  · obtain ⟨h1, h2⟩ := Ins_SBC_binary (sbcState a m true) 0
      (by simp [sbcState, CPUState.HasStatusFlag, StatusFlag.mask])
    have hacc : (sbcState a m true).acc = a := rfl
    have hfetch : (sbcState a m true).FetchData 0 = m := rfl
    have hcarry : (sbcState a m true).GetStatusFlag .CARRY = 1 := by
      simp [sbcState, CPUState.GetStatusFlag, StatusFlag.mask]
    rw [hacc, hfetch, hcarry, hxor] at h1 h2
    have hcond : ((a + (255 - m) + 1) &&& 0xFF00 = 0) = (a + (255 - m) + 1 < 256) :=
      propext (and_ff00_eq_zero_iff _ (by omega))
    simp only [hcond] at h1 h2
    simp only [sbcBinarySpec, if_true, hxor, Prod.mk.injEq]
    exact ⟨by rw [h1, GET_LOW_BYTE, and255], h2⟩

/-- C3 amended witness: at A = 0x32, M = 0x11, C = 0 the amended claim
gives A = 0x20 with C clear — the spec's own end-to-end scenario 1. -/
theorem c3_sbc_binary_amended_witness :
    (((sbcState 0x32 0x11 false).Ins_SBC 0).1.acc,
     ((sbcState 0x32 0x11 false).Ins_SBC 0).1.HasStatusFlag .CARRY) =
      sbcBinarySpec 0x32 0x11 false ∧
    sbcBinarySpec 0x32 0x11 false = (0x20, false) :=
  ⟨c3_sbc_binary_amended 0x32 0x11 false (by decide) (by decide), by decide⟩

/-
Claim C9: the U bit of P in every reachable state.
-/

/-- Tick leaves the unused bit set: the early (cycle-consuming) path does
not touch P, and the instruction path ends with
`SetStatusFlag(StatusFlag::UNUSED)`. -/
lemma tick_preserves_unused (s : CPUState) (h : s.HasStatusFlag .UNUSED = true) :
    s.Tick.1.HasStatusFlag .UNUSED = true := by
  by_cases hc : ({ s with cyclesExecuted := s.cyclesExecuted + 1 } : CPUState).cyclesRem > 0
  · simp only [CPUState.Tick, if_pos hc]
    exact h
  · simp only [CPUState.Tick, if_neg hc]
    exact hasFlag_setFlag_self _ _ _

/-- IRQ leaves the unused bit set: when masked it does nothing, otherwise
it forces U = 1 before pushing P. -/
lemma irq_preserves_unused (s : CPUState) (h : s.HasStatusFlag .UNUSED = true) :
    s.IRQ.HasStatusFlag .UNUSED = true := by
  by_cases hi : s.HasStatusFlag .INTERRUPT = true
  · simp only [CPUState.IRQ, if_pos hi]
    exact h
  · simp only [CPUState.IRQ, if_neg hi]
    simp only [HasStatusFlag_def, p_PushToStack, p_setFlag_self]

/-- NMI forces U = 1 unconditionally. -/
lemma nmi_preserves_unused (s : CPUState) :
    s.NMI.HasStatusFlag .UNUSED = true := by
  simp only [CPUState.NMI]
  simp only [HasStatusFlag_def, p_PushToStack, p_setFlag_self]

/-- Reset sets P to `0 | UNUSED`. -/
lemma reset_unused (s : CPUState) : s.Reset.HasStatusFlag .UNUSED = true := by
  simp [CPUState.Reset, CPUState.HasStatusFlag, StatusFlag.mask]

/-- C9.  In every CPU state reachable from a Reset by any sequence of
Tick, IRQ and NMI calls, the unused bit U of the processor status
register P is 1. -/
theorem c9_unused_bit_invariant : ∀ s : CPUState, Reachable s → s.HasStatusFlag .UNUSED = true := by
  intro s h
  induction h with
  | reset t => exact reset_unused t
  | tick _ ih => exact tick_preserves_unused _ ih
  | irq _ ih => exact irq_preserves_unused _ ih
  | nmi _ ih => exact nmi_preserves_unused _

/-- The CPU as constructed by `CPU::CPU` (all registers zero), attached
to a zeroed 64 KiB memory. -/
def initialCPUState : CPUState := ⟨0, 0, 0, 0, 0, 0, false, 0, 0, 0, fun _ => 0⟩

/-- C9 witness: the freshly constructed CPU after Reset is reachable and
has U = 1. -/
theorem c9_unused_bit_invariant_witness :
    initialCPUState.Reset.HasStatusFlag .UNUSED = true :=
  c9_unused_bit_invariant _ (Reachable.reset initialCPUState)

end Mos6502
